import Mathlib

/-!
Verification of the `serde_perl_dumper` crate: a shallow embedding of its
parser (`src/parser.rs`), quoting helpers (`src/quote.rs`) and key
serializer (`src/ser/key.rs`), together with theorems settling the
specification claims about them.

Conventions of the embedding:
* Rust `&str` input is modelled as `List Char`; nom's `IResult` is modelled
  by `PRes`, whose third outcome `panicked` records a Rust `panic!`
  (the source calls `.unwrap()` on fallible numeric conversions).
* nom's recursive grammar is embedded with an explicit fuel parameter;
  every recursive descent in the source consumes at least one input
  character first, so fuel `input.length + 1` never runs out.
* `f64` values appearing only through their formatted text are carried as
  that text (the spec declares numeric text formatting a black box).
-/

namespace PerlDumper

/-- Result of running an embedded nom parser: success with remaining input,
a recoverable nom error (`nom::Err::Error`), or a Rust panic. -/
inductive PRes (α : Type) where
  | ok (rest : List Char) (val : α)
  | err
  | panicked
deriving Repr

/-- An embedded nom parser over character lists. -/
def Parser (α : Type) : Type := List Char → PRes α

instance : Monad Parser where
  pure a := fun input => .ok input a
  bind p f := fun input =>
    match p input with
    | .ok rest a => f a rest
    | .err => .err
    | .panicked => .panicked

/-- A parser that always fails with a nom error. -/
def pfail {α : Type} : Parser α := fun _ => .err

/-- A parser that models a Rust `panic!` (process abort). -/
def ppanic {α : Type} : Parser α := fun _ => .panicked

/-- nom `alt` for two alternatives: the second runs only when the first
returns a recoverable error; a panic propagates. -/
def palt {α : Type} (p q : Parser α) : Parser α := fun input =>
  match p input with
  | .err => q input
  | r => r

/-- nom `alt` for three alternatives. -/
def palt3 {α : Type} (p q r : Parser α) : Parser α := palt p (palt q r)

/-- nom `map`. -/
def pmap {α β : Type} (p : Parser α) (f : α → β) : Parser β := fun input =>
  match p input with
  | .ok rest a => .ok rest (f a)
  | .err => .err
  | .panicked => .panicked

/-- nom `char(c)`: consume exactly the character `c`. -/
def pchar (c : Char) : Parser Char := fun input =>
  match input with
  | d :: rest => if d = c then .ok rest c else .err
  | [] => .err

/-- nom `tag(s)`: consume exactly the string `s`. -/
def ptagGo : List Char → Parser Unit
  | [] => pure ()
  | c :: cs => do
    _ ← pchar c
    ptagGo cs

/-- nom `tag(s)` on a string literal. -/
def ptag (s : String) : Parser Unit := ptagGo s.data

/-- nom `one_of(set)`: consume one character that is in `set`. -/
def poneOf (set : String) : Parser Char := fun input =>
  match input with
  | d :: rest => if set.data.contains d then .ok rest d else .err
  | [] => .err

/-- nom `opt(p)`: recoverable failure of `p` yields `none` without
consuming input; a panic still propagates. -/
def popt {α : Type} (p : Parser α) : Parser (Option α) := fun input =>
  match p input with
  | .ok rest a => .ok rest (some a)
  | .err => .ok input none
  | .panicked => .panicked

/-- The whitespace characters recognised by nom `multispace0`. -/
def isSpaceChar (c : Char) : Bool := c = ' ' || c = '\t' || c = '\r' || c = '\n'

/-- nom `multispace0`: consume any run (possibly empty) of whitespace. -/
def pmultispace0 : Parser Unit := fun input =>
  .ok (input.dropWhile isSpaceChar) ()

/-- nom `take_while1(pred)` over `&str`: the longest nonempty prefix
satisfying `pred` (also the body of `split_at_position1_complete`). -/
def ptakeWhile1 (pred : Char → Bool) : Parser (List Char) := fun input =>
  match input.takeWhile pred with
  | [] => .err
  | taken => .ok (input.dropWhile pred) taken

/-- ASCII decimal digit, as in nom `AsChar::is_dec_digit`. -/
def isDecDigit (c : Char) : Bool := '0' ≤ c && c ≤ '9'

/-- nom `digit1`: one or more ASCII decimal digits. -/
def pdigit1 : Parser (List Char) := ptakeWhile1 isDecDigit

/-- Rust `char::is_ascii_alphanumeric`. -/
def isAsciiAlphanumeric (c : Char) : Bool :=
  ('A' ≤ c && c ≤ 'Z') || ('a' ≤ c && c ≤ 'z') || ('0' ≤ c && c ≤ '9')

/-- `is_perl_digit` from `src/parser.rs`: a decimal digit or underscore. -/
def isPerlDigit (c : Char) : Bool := isDecDigit c || c = '_'

/-- `perl_digit1` from `src/parser.rs`: `take_while1(is_perl_digit)` via
`split_at_position1_complete`. -/
def perlDigit1 : Parser (List Char) := ptakeWhile1 isPerlDigit

/-- `many1(p)` specialised to `perl_digit1`-like parsers, with fuel bounded
by the input length (each successful inner run consumes at least one
character, so the fuel never runs out on the source's uses). -/
def pmany1Go {α : Type} (p : Parser α) : Nat → List Char → List α → PRes (List α)
  | 0, _, _ => .err
  | fuel + 1, input, acc =>
    match p input with
    | .ok rest a => pmany1Go p fuel rest (acc ++ [a])
    | .err => if acc.isEmpty then .err else .ok input acc
    | .panicked => .panicked

/-- nom `many1(p)`. -/
def pmany1 {α : Type} (p : Parser α) : Parser (List α) := fun input =>
  pmany1Go p (input.length + 1) input []

/-- The loop of nom `separated_list0(sep, p)` after a first element has
been parsed: on a failing separator, or a failing element after a
separator, return the elements accumulated so far and backtrack to the
position before that separator. -/
def psepLoop {α β : Type} (sep : Parser β) (p : Parser α) :
    Nat → List Char → List α → PRes (List α)
  | 0, _, _ => .err
  | fuel + 1, input, acc =>
    match sep input with
    | .err => .ok input acc
    | .panicked => .panicked
    | .ok rest _ =>
      match p rest with
      | .err => .ok input acc
      | .panicked => .panicked
      | .ok rest2 a => psepLoop sep p fuel rest2 (acc ++ [a])

/-- nom `separated_list0(sep, p)`; the source's separator (`comma`) always
consumes input, so the fuel `input.length + 1` never runs out. -/
def psepList0 {α β : Type} (sep : Parser β) (p : Parser α) : Parser (List α) :=
  fun input =>
    match p input with
    | .err => .ok input []
    | .panicked => .panicked
    | .ok rest a => psepLoop sep p (input.length + 1) rest [a]

/-- nom `escaped(none_of(norm-set), backslash, one_of(escp-set))`, with the
single-character `normal` parser given by the predicate `norm` (true on the
characters `none_of` accepts) and the escapable set by `escp`.  As in nom,
the matched raw slice is returned with escape sequences kept verbatim; a
backslash at the end of input, an unescapable character after a backslash,
or a zero-length match followed by an unacceptable character, are errors. -/
def pescapedGo (norm escp : Char → Bool) : List Char → List Char → PRes (List Char)
  | [], acc => .ok [] acc
  | c :: rest, acc =>
    if norm c then pescapedGo norm escp rest (acc ++ [c])
    else if c = '\\' then
      match rest with
      | [] => .err
      | d :: rest2 =>
        if escp d then pescapedGo norm escp rest2 (acc ++ ['\\', d]) else .err
    else if acc.isEmpty then .err
    else .ok (c :: rest) acc

/-- nom `escaped` with a single-character `none_of` normal parser. -/
def pescaped (norm escp : Char → Bool) : Parser (List Char) := fun input =>
  pescapedGo norm escp input []

/-- nom `escaped_transform(none_of(norm-set), backslash, table)`: like
`pescapedGo` but the output is accumulated transformed, each escape
sequence `\d` replaced by `table d` (error when `table d = none`).
`started` records whether any input has been consumed (nom errors on a
zero-length match at an unacceptable character). -/
def pescTransGo (norm : Char → Bool) (table : Char → Option String) :
    List Char → List Char → Bool → PRes (List Char)
  | [], acc, _ => .ok [] acc
  | c :: rest, acc, started =>
    if norm c then pescTransGo norm table rest (acc ++ [c]) true
    else if c = '\\' then
      match rest with
      | [] => .err
      | d :: rest2 =>
        match table d with
        | some out => pescTransGo norm table rest2 (acc ++ out.data) true
        | none => .err
    else if started then .ok (c :: rest) acc
    else .err

/-- nom `escaped_transform` with a single-character `none_of` normal parser
and a single-character transform alternation given as a lookup table. -/
def pescapedTransform (norm : Char → Bool) (table : Char → Option String) :
    Parser (List Char) := fun input => pescTransGo norm table input [] false

mutual
/-- `Scalar` from `src/parser.rs`. `Float` carries the parsed numeric value
(see `rustParseF64` for how `f64` is modelled). -/
inductive Scalar : Type where
  | undefined : Scalar
  | int (i : Int) : Scalar
  | float (f : Rat) : Scalar
  | string (s : String) : Scalar
  | reference (r : Reference) : Scalar

/-- `Reference` from `src/parser.rs`.  The `Hash(HashMap<String, Scalar>)`
and `Array(Vec<Scalar>)` newtypes are inlined: the hash is the association
list built by `hashInsert` in pair order (the `HashMap` forgets order; the
claims below never depend on it) and the array is the element list. -/
inductive Reference : Type where
  | hash (h : List (String × Scalar)) : Reference
  | array (a : List Scalar) : Reference
  | scalar (s : Scalar) : Reference
end

/-- `HashMap::insert`: replace the value at an existing key, or add the
binding. -/
def hashInsert (h : List (String × Scalar)) (k : String) (v : Scalar) :
    List (String × Scalar) :=
  if h.any (fun kv => kv.1 = k) then
    h.map (fun kv => if kv.1 = k then (k, v) else kv)
  else h ++ [(k, v)]

/-- `s.replace('_', "")` from `parse_number`. -/
def stripUnderscores (s : String) : String :=
  String.mk (s.data.filter (fun c => c ≠ '_'))

/-- The numeric value of a digit run, `none` when empty or not all digits. -/
def digitsToNat (l : List Char) : Option Nat :=
  if l.isEmpty then none
  else if l.all isDecDigit then
    some (l.foldl (fun n c => n * 10 + (c.toNat - 48)) 0)
  else none

/-- Modelled black box (the spec declares text-to-number conversion a
black-box utility): Rust `str::parse::<i64>` on an optional `-` sign
followed by digits, `none` outside `[-2^63, 2^63 - 1]` or when no digit is
present. -/
def rustParseI64 (s : String) : Option Int :=
  match s.data with
  | '-' :: rest =>
    (digitsToNat rest).bind fun n =>
      if (n : Int) ≤ 2 ^ 63 then some (-(n : Int)) else none
  | l =>
    (digitsToNat l).bind fun n =>
      if (n : Int) ≤ 2 ^ 63 - 1 then some (n : Int) else none

/-- Modelled black box (the spec declares text-to-number conversion a
black-box utility): Rust `str::parse::<f64>` on the decimal texts this
parser produces (optional `-`, digits, optional `.` and digits, at least
one digit in total), modelled as the exact rational value of the decimal
text; IEEE-754 rounding is elided, which keeps distinct the short decimal
texts the claims compare. -/
def rustParseF64 (s : String) : Option Rat :=
  let signAndBody : Bool × List Char :=
    match s.data with
    | '-' :: rest => (true, rest)
    | l => (false, l)
  let body := signAndBody.2
  let ip := body.takeWhile (fun c => c ≠ '.')
  let fp :=
    match body.dropWhile (fun c => c ≠ '.') with
    | '.' :: f => f
    | _ => []
  if ip.isEmpty && fp.isEmpty then none
  else if ip.all isDecDigit && fp.all isDecDigit then
    let ipVal : Nat := ip.foldl (fun n c => n * 10 + (c.toNat - 48)) 0
    let fpVal : Nat := fp.foldl (fun n c => n * 10 + (c.toNat - 48)) 0
    let mag : Rat := mkRat (ipVal * 10 ^ fp.length + fpVal) (10 ^ fp.length)
    some (if signAndBody.1 then -mag else mag)
  else none

/-- `parse_undef` from `src/parser.rs`. -/
def parseUndef : Parser Scalar := do
  _ ← ptag "undef"
  pure Scalar.undefined

/-- `parse_number` from `src/parser.rs`.  The source calls
`.parse::<i64>().unwrap()` (resp. `f64`), so a failing conversion is a
panic, not a parse error. -/
def parseNumber : Parser Scalar := do
  let sign ← popt (pchar '-')
  let int ← perlDigit1
  let frac ← popt (do
    _ ← pchar '.'
    pmany1 perlDigit1)
  let e ← popt (do
    _ ← poneOf "eE"
    pdigit1)
  let signStr : String := match sign with
    | some _ => "-"
    | none => ""
  let eStr : String := match e with
    | some d => String.mk d
    | none => ""
  match frac with
  | none =>
    let s := stripUnderscores (signStr ++ String.mk int ++ eStr)
    match rustParseI64 s with
    | some i => pure (Scalar.int i)
    | none => ppanic
  | some fracRuns =>
    let fracStr := String.join (fracRuns.map String.mk)
    let s := stripUnderscores (signStr ++ String.mk int ++ "." ++ fracStr ++ eStr)
    match rustParseF64 s with
    | some f => pure (Scalar.float f)
    | none => ppanic

/-- `parse_single_quoted_string` from `src/parser.rs`: note the body uses
nom `escaped`, which returns the matched slice verbatim, escape sequences
included. -/
def parseSingleQuotedString : Parser Scalar := do
  _ ← pchar '\''
  let s ← pescaped (fun c => !(c = '\\' || c = '\'')) (fun c => c = '\'' || c = '\\')
  _ ← pchar '\''
  pure (Scalar.string (String.mk s))

/-- The escape table of `parse_double_quoted_string` (the
`escaped_transform` alternation of `value(..., tag(...))` branches). -/
def dqTable (c : Char) : Option String :=
  if c = '\\' then some "\\"
  else if c = '"' then some "\""
  else if c = 'n' then some "\n"
  else if c = 'r' then some "\r"
  else if c = 't' then some "\t"
  else if c = '0' then some "\x00"
  else if c = 'v' then some "\x0B"
  else if c = 'b' then some "\x08"
  else if c = 'a' then some "\x07"
  else if c = 'e' then some "\x1B"
  else if c = 'z' then some "\x1F"
  else none

/-- `parse_double_quoted_string` from `src/parser.rs`. -/
def parseDoubleQuotedString : Parser Scalar := do
  _ ← pchar '"'
  let s ← pescapedTransform (fun c => !(c = '\\' || c = '"')) dqTable
  _ ← pchar '"'
  pure (Scalar.string (String.mk s))

/-- `PUNCTUATION` from `src/parser.rs` (the brace is written `\x7b`). -/
def PUNCTUATION : String := "!\"#$%&'(*+,-/:;<=?@[\\^`\x7b|~"

/-- `paired_quote_delimiter` from `src/parser.rs`. -/
def pairedQuoteDelimiter (c : Char) : Char :=
  if c = '(' then ')'
  else if c = '[' then ']'
  else if c = '\x7b' then '\x7d'
  else if c = '<' then '>'
  else c

/-- The body scan of `parse_q_string`: the source runs nom
`escaped(many0(none_of(esc)), backslash, one_of(esc))`, and because the
`many0` normal parser succeeds even when it consumes nothing, nom's
`escaped` returns as soon as the first character of `esc` (the closing
delimiter or a backslash) is reached — the escape branch is never entered.
The scan is therefore the longest prefix free of `esc` characters and it
never fails. -/
def pqBody (esc : List Char) : Parser (List Char) := fun input =>
  .ok (input.dropWhile (fun c => !esc.contains c))
    (input.takeWhile (fun c => !esc.contains c))

/-- `parse_q_string` from `src/parser.rs`. -/
def parseQString : Parser Scalar := do
  _ ← pchar 'q'
  let startDelim ← poneOf PUNCTUATION
  let endDelim := pairedQuoteDelimiter startDelim
  let s ← pqBody [endDelim, '\\']
  _ ← pchar endDelim
  pure (Scalar.string (String.mk s))

/-- `parse_string` from `src/parser.rs`. -/
def parseString : Parser Scalar :=
  palt3 parseSingleQuotedString parseDoubleQuotedString parseQString

/-- `parse_literal_scalar` from `src/parser.rs`. -/
def parseLiteralScalar : Parser Scalar := do
  _ ← pmultispace0
  palt3 parseUndef parseNumber parseString

/-- `parse_bareword` from `src/parser.rs`. -/
def parseBareword : Parser Scalar := do
  let s ← ptakeWhile1 (fun c => isAsciiAlphanumeric c || c = '_')
  pure (Scalar.string (String.mk s))

/-- `parse_bareword_or_literal` from `src/parser.rs`. -/
def parseBarewordOrLiteral : Parser Scalar :=
  palt parseBareword parseLiteralScalar

/-- `comma` from `src/parser.rs`:
`delimited(multispace0, char(','), multispace0)`. -/
def pcomma : Parser Char := do
  _ ← pmultispace0
  let c ← pchar ','
  _ ← pmultispace0
  pure c

/-- `parse_fatcomma_pair` from `src/parser.rs`, with `rec` standing for the
recursive `parse_scalar` call. -/
def parseFatcommaPairW (recur : Parser Scalar) : Parser (Scalar × Scalar) := do
  _ ← pmultispace0
  let key ← parseBarewordOrLiteral
  _ ← pmultispace0
  _ ← ptag "=>"
  _ ← pmultispace0
  let value ← recur
  pure (key, value)

/-- `parse_comma_pair` from `src/parser.rs`. -/
def parseCommaPairW (recur : Parser Scalar) : Parser (Scalar × Scalar) := do
  _ ← pmultispace0
  let key ← parseLiteralScalar
  _ ← pcomma
  let value ← recur
  pure (key, value)

/-- `parse_pair` from `src/parser.rs`. -/
def parsePairW (recur : Parser Scalar) : Parser (Scalar × Scalar) :=
  palt (parseFatcommaPairW recur) (parseCommaPairW recur)

/-- The key-collection loop of `parse_hashref`: every key must be a
`Scalar::String`, otherwise the whole hashref errors. -/
def collectHash : List (Scalar × Scalar) → List (String × Scalar) →
    Option (List (String × Scalar))
  | [], h => some h
  | (Scalar.string k, v) :: rest, h => collectHash rest (hashInsert h k v)
  | _ :: _, _ => none

/-- `parse_hashref` from `src/parser.rs`. -/
def parseHashrefW (recur : Parser Scalar) : Parser Reference := do
  _ ← pchar '\x7b'
  _ ← pmultispace0
  let pairs ← psepList0 pcomma (parsePairW recur)
  _ ← popt pcomma
  _ ← pmultispace0
  _ ← pchar '\x7d'
  match collectHash pairs [] with
  | some h => pure (Reference.hash h)
  | none => pfail

/-- `parse_arrayref` from `src/parser.rs`. -/
def parseArrayrefW (recur : Parser Scalar) : Parser Reference := do
  _ ← pchar '['
  _ ← pmultispace0
  let scalars ← psepList0 pcomma recur
  _ ← popt pcomma
  _ ← pmultispace0
  _ ← pchar ']'
  pure (Reference.array scalars)

/-- `parse_scalarref` from `src/parser.rs`. -/
def parseScalarrefW (recur : Parser Scalar) : Parser Reference := do
  _ ← pchar '\\'
  let scalar ← recur
  pure (Reference.scalar scalar)

/-- `parse_reference` from `src/parser.rs`. -/
def parseReferenceW (recur : Parser Scalar) : Parser Scalar :=
  pmap (palt3 (parseHashrefW recur) (parseArrayrefW recur) (parseScalarrefW recur))
    Scalar.reference

/-- `parse_scalar` from `src/parser.rs`, with fuel bounding the recursion
depth (every descent into `parse_reference` first consumes a `\x7b`, `[`
or backslash, so depth is at most the input length). -/
def parseScalar : Nat → Parser Scalar
  | 0 => pfail
  | fuel + 1 => palt parseLiteralScalar (parseReferenceW (parseScalar fuel))

/-- `parse_scalar` applied at the top level with adequate fuel. -/
def parseScalarTop (s : String) : PRes Scalar :=
  parseScalar (s.length + 1) s.data

/-- Outcome of the crate-level `parse`: a value, a `Error::Nom` parse
error, or a process abort (panic). -/
inductive ParseOutcome : Type where
  | ok (v : Scalar) : ParseOutcome
  | err : ParseOutcome
  | panicked : ParseOutcome

/-- `parse` from `src/parser.rs`: run `parse_scalar` and discard whatever
input remains (`let (_, scalar) = parse_scalar(input) ...`). -/
def parse (s : String) : ParseOutcome :=
  match parseScalarTop s with
  | .ok _ v => .ok v
  | .err => .err
  | .panicked => .panicked

/-- `single_quote` from `src/quote.rs`, as the text appended to the output
buffer: a quote, then the loop over the characters (escaping only the
single-quote character), then a quote. -/
def singleQuote (value : String) : String :=
  String.mk ('\'' ::
    (value.data.foldl
      (fun acc c => if c = '\'' then acc ++ ['\\', '\''] else acc ++ [c]) [])
    ++ ['\''])

/-- `is_bareword` from `src/quote.rs`. -/
def isBareword (value : String) : Bool :=
  if value.isEmpty then false
  else value.data.all (fun c => isAsciiAlphanumeric c || c = '_')

/-- `bare_quote` from `src/quote.rs`, as the text appended to the output
buffer. -/
def bareQuote (value : String) : String :=
  if isBareword value then value else singleQuote value

/-- The single-quote rule as §4.2 of the spec states it, for comparison
with the source `single_quote`: both the quote and the backslash escaped,
everything else unchanged. -/
def specSingleQuote (value : String) : String :=
  String.mk ('\'' ::
    (value.data.flatMap
      (fun c => if c = '\'' || c = '\\' then ['\\', c] else [c]))
    ++ ['\''])

/-- Modelled from the spec: the general Printer (its source, `ser/mod.rs`,
is not under `src/`) renders a `String` scalar as single-quoted text by the
§4.2 rule, which is the source `single_quote` of `src/quote.rs`. -/
def printStringScalar (s : String) : String := singleQuote s

/-- The shapes a `serde` value can present to the `KeySerializer` of
`src/ser/key.rs`, one constructor per `Serializer` entry point.  Floats
appear only through their formatted text, so `f32` carries the
`ryu::Buffer::format` text and `f64` carries both the `Display`
(`v.to_string()`) and the `ryu` text; `bytes` carries the
`String::from_utf8_lossy` decoding.  The compound entry points
(`serialize_seq`, ...) error before ever receiving elements, so their
constructors carry none. -/
inductive KeyInput : Type where
  | bool (b : Bool) : KeyInput
  | i8 (v : Int) : KeyInput
  | i16 (v : Int) : KeyInput
  | i32 (v : Int) : KeyInput
  | i64 (v : Int) : KeyInput
  | u8 (v : Nat) : KeyInput
  | u16 (v : Nat) : KeyInput
  | u32 (v : Nat) : KeyInput
  | u64 (v : Nat) : KeyInput
  | i128 : KeyInput
  | u128 : KeyInput
  | f32 (ryu : String) : KeyInput
  | f64 (display ryu : String) : KeyInput
  | char (c : Char) : KeyInput
  | str (s : String) : KeyInput
  | bytes (lossy : String) : KeyInput
  | noneV : KeyInput
  | someV (v : KeyInput) : KeyInput
  | unit : KeyInput
  | unitStruct (name : String) : KeyInput
  | unitVariant (variant : String) : KeyInput
  | newtypeStruct (name : String) (v : KeyInput) : KeyInput
  | newtypeVariant (variant : String) (v : KeyInput) : KeyInput
  | seq : KeyInput
  | tuple : KeyInput
  | tupleStruct : KeyInput
  | tupleVariant : KeyInput
  | mapShape : KeyInput
  | structShape : KeyInput
  | structVariant : KeyInput

/-- `int_quote` from `src/quote.rs` (`itoa` plain decimal formatting). -/
def intQuote (v : Int) : String := toString v

/-- The `Serializer` impl for `KeySerializer` in `src/ser/key.rs`: given
the output accumulated so far, serialize one key value, returning the new
output or the error message (`serde::ser::Error::custom`). -/
def keySerStep (out : String) : KeyInput → Except String String
  | .bool b => .ok (out ++ if b then "1" else "0")
  | .i8 v => .ok (out ++ intQuote v)
  | .i16 v => .ok (out ++ intQuote v)
  | .i32 v => .ok (out ++ intQuote v)
  | .i64 v => .ok (out ++ intQuote v)
  | .u8 v => .ok (out ++ intQuote (v : Int))
  | .u16 v => .ok (out ++ intQuote (v : Int))
  | .u32 v => .ok (out ++ intQuote (v : Int))
  | .u64 v => .ok (out ++ intQuote (v : Int))
  | .i128 => .error "i128 is not supported"
  | .u128 => .error "u128 is not supported"
  | .f32 ryu => .ok (out ++ ryu)
  | .f64 display ryu => .ok (out ++ display ++ ryu)
  | .char c => .ok (out.push c)
  | .str s => .ok (out ++ bareQuote s)
  | .bytes lossy => .ok (out ++ lossy)
  | .noneV => .ok (out ++ "null")
  | .someV v => keySerStep out v
  | .unit => .ok out
  | .unitStruct name => .ok (out ++ name)
  | .unitVariant variant => .ok (out ++ variant)
  | .newtypeStruct name v => keySerStep (out ++ name) v
  | .newtypeVariant variant v => keySerStep (out ++ variant) v
  | .seq => .error "key must be a string"
  | .tuple => .error "key must be a string"
  | .tupleStruct => .error "key must be a string"
  | .tupleVariant => .error "key must be a string"
  | .mapShape => .error "key must be a string"
  | .structShape => .error "key must be a string"
  | .structVariant => .error "key must be a string"

/-- Serializing one key with a fresh `KeySerializer` (`output` starts
empty, as in `KeySerializer::default`). -/
def keySerialize (v : KeyInput) : Except String String := keySerStep "" v

/-- The non-scalar shapes of the claim: sequence, map, struct, tuple,
tuple struct, tuple variant, struct variant. -/
def isCompoundShape : KeyInput → Bool
  | .seq => true
  | .tuple => true
  | .tupleStruct => true
  | .tupleVariant => true
  | .mapShape => true
  | .structShape => true
  | .structVariant => true
  | _ => false

/-- The body of `single_quote`'s character loop, folded, equals the
per-character expansion. -/
theorem singleQuote_foldl_flatMap (l : List Char) (acc : List Char) :
    l.foldl (fun acc c => if c = '\'' then acc ++ ['\\', '\''] else acc ++ [c]) acc =
      acc ++ l.flatMap (fun c => if c = '\'' then ['\\', '\''] else [c]) := by
  induction l generalizing acc with
  | nil => simp
  | cons c rest ih =>
    simp only [List.foldl_cons, List.flatMap_cons, ih]
    by_cases h : c = '\''
    · simp [h]
    · simp [h]

/-- Every error message the `KeySerializer` can produce, whatever the
already-accumulated output. -/
theorem keySerStep_error_msg (v : KeyInput) : ∀ (out e : String),
    keySerStep out v = .error e →
      e = "key must be a string" ∨ e = "i128 is not supported" ∨
        e = "u128 is not supported" := by
  induction v with
  | someV v ih => intro out e h; exact ih out e h
  | newtypeStruct name v ih => intro out e h; exact ih (out ++ name) e h
  | newtypeVariant variant v ih => intro out e h; exact ih (out ++ variant) e h
  | _ =>
    intro out e h
    simp [keySerStep] at h
    try simp [h]

/-- C1: the round trip `parse (print v) = v` fails on the code: for the
string scalar consisting of one single-quote character, the printer emits
a backslash escape but the parser's `escaped` combinator returns the
escape sequence verbatim, so the reparsed scalar is the two-character
string backslash-quote, not the original. -/
theorem roundtrip_single_quote_bug :
    parse (printStringScalar (String.mk ['\''])) =
      .ok (.string (String.mk ['\\', '\''])) ∧
    String.mk ['\\', '\''] ≠ String.mk ['\''] :=
  ⟨rfl, by decide⟩

/-- C2: parsing the integer literal one past `i64::MAX` does not return a
failure result: `parse_number` reaches `s.parse::<i64>().unwrap()` and the
process panics. -/
theorem parse_overflow_panics : parse "9223372036854775808" = .panicked := rfl

/-- C3: the three quote-operator spellings are equivalent — `q\x7bhi\x7d`,
`q(hi)` and `q!hi!` all parse to the string `hi`; bracket delimiters close
with their paired counterpart and every other punctuation delimiter closes
with itself. -/
theorem q_delimiter_equivalence :
    parse "q\x7bhi\x7d" = .ok (.string "hi") ∧
    parse "q(hi)" = .ok (.string "hi") ∧
    parse "q!hi!" = .ok (.string "hi") ∧
    pairedQuoteDelimiter '(' = ')' ∧
    pairedQuoteDelimiter '[' = ']' ∧
    pairedQuoteDelimiter '\x7b' = '\x7d' ∧
    pairedQuoteDelimiter '<' = '>' ∧
    ∀ c ∈ PUNCTUATION.data, c ∉ ['(', '[', '\x7b', '<'] →
      pairedQuoteDelimiter c = c :=
  ⟨rfl, rfl, rfl, rfl, rfl, rfl, rfl, by decide⟩

/-- C4: a bareword key is accepted in fat-comma position — `\x7ba=>1\x7d`
parses to a hashref with the single string key `a` — and rejected in comma
position: `\x7ba,1\x7d` fails to parse. -/
theorem hashref_bareword_key_positions :
    parse "\x7ba=>1\x7d" = .ok (.reference (.hash [("a", .int 1)])) ∧
    parse "\x7ba,1\x7d" = .err :=
  ⟨rfl, rfl⟩

/-- C5: the double-quoted string parser decodes exactly the fixed escape
table (`\z` to the control code 0x1F, not the letter `z`), rejects any
other escape letter, and takes every non-backslash, non-quote character
literally. -/
theorem dq_escape_table (c : Char) (h1 : c ≠ '\\') (h2 : c ≠ '"') :
    parseDoubleQuotedString ['"', c, '"'] = .ok [] (.string (String.mk [c])) ∧
    parseDoubleQuotedString "\"\\\\\"".data = .ok [] (.string "\\") ∧
    parseDoubleQuotedString "\"\\\"\"".data = .ok [] (.string "\"") ∧
    parseDoubleQuotedString "\"\\n\"".data = .ok [] (.string "\n") ∧
    parseDoubleQuotedString "\"\\r\"".data = .ok [] (.string "\r") ∧
    parseDoubleQuotedString "\"\\t\"".data = .ok [] (.string "\t") ∧
    parseDoubleQuotedString "\"\\0\"".data = .ok [] (.string "\x00") ∧
    parseDoubleQuotedString "\"\\v\"".data = .ok [] (.string "\x0B") ∧
    parseDoubleQuotedString "\"\\b\"".data = .ok [] (.string "\x08") ∧
    parseDoubleQuotedString "\"\\a\"".data = .ok [] (.string "\x07") ∧
    parseDoubleQuotedString "\"\\e\"".data = .ok [] (.string "\x1B") ∧
    parseDoubleQuotedString "\"\\z\"".data = .ok [] (.string "\x1F") ∧
    parseDoubleQuotedString "\"\\q\"".data = .err := by
  refine ⟨?_, rfl, rfl, rfl, rfl, rfl, rfl, rfl, rfl, rfl, rfl, rfl, rfl⟩
  simp [parseDoubleQuotedString, pescapedTransform, pescTransGo, pchar, h1, h2,
    Bind.bind, Pure.pure]

/-- C5 witness: the escape-table theorem applied at the concrete literal
character `x`. -/
theorem dq_escape_table_witness :
    parseDoubleQuotedString ['"', 'x', '"'] = .ok [] (.string (String.mk ['x'])) :=
  (dq_escape_table 'x' (by decide) (by decide)).1

/-- C6: every non-scalar shape presented to the key serializer fails with
the `key must be a string` error, and every error the key serializer can
produce is either that error or one of the two 128-bit-integer
rejections. -/
theorem key_serializer_failure_modes (v : KeyInput) :
    (isCompoundShape v = true → keySerialize v = .error "key must be a string") ∧
    (∀ e, keySerialize v = .error e →
      e = "key must be a string" ∨ e = "i128 is not supported" ∨
        e = "u128 is not supported") := by
  constructor
  · intro h
    cases v <;> first | rfl | simp [isCompoundShape] at h
  · intro e h
    exact keySerStep_error_msg v "" e h

/-- C6 witness: the failure-mode theorem applied at the sequence shape. -/
theorem key_serializer_failure_modes_witness :
    keySerialize .seq = .error "key must be a string" :=
  (key_serializer_failure_modes .seq).1 rfl

/-- C7 counterexample: on the one-character string holding a backslash,
`bare_quote` falls back to single-quoting but leaves the backslash
unescaped, contradicting the claim that `'` and `\` are both escaped. -/
theorem bare_quote_backslash_counterexample :
    isBareword (String.mk ['\\']) = false ∧
    bareQuote (String.mk ['\\']) ≠ specSingleQuote (String.mk ['\\']) ∧
    bareQuote (String.mk ['\\']) = String.mk ['\'', '\\', '\''] := by
  decide

/-- C7 amended: `bare_quote` emits the bare text exactly when the string
is non-empty and all characters are ASCII alphanumeric or underscore;
otherwise it emits a single-quoted literal in which exactly the
single-quote character is escaped and every other character — the
backslash included — appears unchanged. -/
theorem bare_quote_amended (s : String) :
    (isBareword s = true ↔
      s.isEmpty = false ∧ ∀ c ∈ s.data, (isAsciiAlphanumeric c || c = '_') = true) ∧
    (isBareword s = true → bareQuote s = s) ∧
    (isBareword s = false →
      bareQuote s = String.mk ('\'' ::
        s.data.flatMap (fun c => if c = '\'' then ['\\', '\''] else [c]) ++ ['\''])) := by
  refine ⟨?_, ?_, ?_⟩
  · simp [isBareword, List.all_eq_true]
  · intro h
    simp [bareQuote, h]
  · intro h
    simp [bareQuote, h, singleQuote, singleQuote_foldl_flatMap]

/-- C7 witness: the amended characterisation applied to the key `a b`. -/
theorem bare_quote_amended_witness :
    bareQuote "a b" = String.mk ['\'', 'a', ' ', 'b', '\''] :=
  ((bare_quote_amended "a b").2.2 (by decide)).trans (by decide)

/-- C8: the key serializer's `serialize_f64` emits the `Display` rendering
followed by the `ryu` rendering — the value `1.5` (whose two renderings
are both `1.5`) is printed twice, not once. -/
theorem serialize_f64_double_emission :
    keySerialize (.f64 "1.5" "1.5") = .ok "1.51.5" ∧ ("1.51.5" : String) ≠ "1.5" :=
  ⟨rfl, by decide⟩

/-- C9: when an exponent is present the marker is dropped and the exponent
digits are concatenated onto the preceding digit text: `1e5` parses to the
integer 15 (not 100000) and `1.5e3` parses to the float 1.53 (not
1500). -/
theorem exponent_digits_concatenated :
    parse "1e5" = .ok (.int 15) ∧ (15 : Int) ≠ 100000 ∧
    parse "1.5e3" = .ok (.float (mkRat 153 100)) ∧ mkRat 153 100 ≠ (1500 : Rat) :=
  ⟨rfl, by decide, rfl, by decide⟩

/-- C10: whenever `parse_scalar` succeeds on a prefix, the crate-level
`parse` succeeds with that value and silently discards the remaining
input; in particular `1 trailing garbage` parses to the integer 1. -/
theorem parse_discards_trailing_input (s : String) (rest : List Char) (v : Scalar)
    (h : parseScalarTop s = .ok rest v) :
    parse s = .ok v ∧ parse "1 trailing garbage" = .ok (.int 1) := by
  constructor
  · unfold parse
    rw [h]
  · rfl

/-- C10 witness: the trailing-input theorem applied at the claim's own
example. -/
theorem parse_discards_trailing_input_witness :
    parse "1 trailing garbage" = .ok (.int 1) :=
  (parse_discards_trailing_input "1 trailing garbage" " trailing garbage".data
    (.int 1) rfl).1

end PerlDumper
